import Mathlib

/-!
Verification of the device layer of a YubiKey manager.

The development shallowly embeds `ykman/device.py`: the `YubiKey` handle
construction (device classification from firmware version, transport and the
TLV-encoded capability blob), the mode-switch controller (`set_mode` and the
guarded `mode` setter), the transport switch (`use_transport`) and the
discovery orchestrator (`open_device`).

The module `ykman/util.py` (the TRANSPORT and CAPABILITY enumerations, the
Mode value and `parse_tlv_list`) is not part of the sources at hand; those
pieces are modelled from the specification and are marked as such in their
doc comments.  Everything else is translated directly from `ykman/device.py`.

Bytes are embedded as `Nat`, byte strings as `List Nat`, and Python integer
bitmasks as `Nat` with the bitwise operations `&&&`, `|||`, `^^^`.
-/

deriving instance DecidableEq for Except

namespace Ykman

/-- Firmware version triple; Python compares version tuples lexicographically. -/
structure Version where
  major : Nat
  minor : Nat
  patch : Nat
deriving DecidableEq, Repr

/-- Python tuple comparison `version >= (a, b, c)` (lexicographic). -/
def Version.geTriple (v : Version) (a b c : Nat) : Bool :=
  decide (a < v.major ∨ (a = v.major ∧ (b < v.minor ∨ (b = v.minor ∧ c ≤ v.patch))))

/-- Python tuple comparison `version <= (a, b, c)` (lexicographic). -/
def Version.leTriple (v : Version) (a b c : Nat) : Bool :=
  decide (v.major < a ∨ (v.major = a ∧ (v.minor < b ∨ (v.minor = b ∧ v.patch ≤ c))))

/-- Modelled from the spec: the TRANSPORT enumeration of `ykman/util.py` is
not among the sources.  Per the spec, transports are CCID, OTP and U2F with
disjoint power-of-two bit flags whose sum is usable as a mask, the capability
flags share the transport bit positions, and the Edge override (a capability
mask of exactly 0x07 collapses to OTP and U2F, dropping CCID) pins
OTP = 0x01, U2F = 0x02, CCID = 0x04. -/
def TRANSPORT.OTP : Nat := 0x01

/-- Modelled from the spec: the U2F/FIDO transport bit flag. -/
def TRANSPORT.U2F : Nat := 0x02

/-- Modelled from the spec: the smartcard (CCID) transport bit flag. -/
def TRANSPORT.CCID : Nat := 0x04

/-- Python `sum(TRANSPORT)`: the sum of all transport flags, usable as a mask. -/
def TRANSPORT.sum : Nat := TRANSPORT.OTP + TRANSPORT.U2F + TRANSPORT.CCID

/-- Modelled from the spec: the OTP capability flag of `ykman/util.py`. -/
def CAPABILITY.OTP : Nat := 0x01

/-- Modelled from the spec: the U2F capability flag of `ykman/util.py`. -/
def CAPABILITY.U2F : Nat := 0x02

/-- Modelled from the spec: the CCID capability flag of `ykman/util.py`. -/
def CAPABILITY.CCID : Nat := 0x04

/-- Modelled from the spec: a Mode pairs a numeric code with the bitmask of
the transports it enables. -/
structure Mode where
  code : Nat
  transports : Nat
deriving DecidableEq, Repr

/-- Modelled from the spec: a Mode has a transport when the transport bits
are contained in the mode transport mask. -/
def Mode.has_transport (m : Mode) (t : Nat) : Bool :=
  m.transports &&& t == t

/-- The transport driver abstraction (an external collaborator of the core):
transport, security-key self-identification, firmware version, current cached
mode, optional serial, the raw byte blob answered by read_capabilities and
the bitmask answered by probe_capabilities_support.  The two query results
are embedded as data fields since each driver call is pure for our purposes. -/
structure Driver where
  transport : Nat
  sky : Bool
  version : Version
  mode : Mode
  serial : Option Nat
  read_capabilities : List Nat
  probe_capabilities_support : Nat
deriving DecidableEq, Repr

/-- Overwrite the entry of tag `t` in a decoded tag map (last write wins). -/
def setTag (m : List (Nat × List Nat)) (t : Nat) (v : List Nat) :
    List (Nat × List Nat) :=
  m.filter (fun p => p.1 != t) ++ [(t, v)]

/-- Modelled from the spec: worker for `parse_tlv_list`, consuming one
tag byte, one length byte and that many value bytes per record, left to
right.  The fuel argument only serves structural recursion; it is bounded
below by the buffer length and every step consumes at least two bytes, so a
fuel equal to the initial length never runs out. -/
def parse_tlv_fuel : Nat → List (Nat × List Nat) → List Nat →
    Option (List (Nat × List Nat))
  | _, acc, [] => some acc
  | 0, _, _ :: _ => none
  | _ + 1, _, [_] => none
  | fuel + 1, acc, t :: l :: rest =>
      if l ≤ rest.length then
        parse_tlv_fuel fuel (setTag acc t (rest.take l)) (rest.drop l)
      else none

/-- Modelled from the spec: `parse_tlv_list` of `ykman/util.py` is not among
the sources.  Per the spec it decodes a flat sequence of records, each one
tag byte, one length byte, then length value bytes, into a tag-to-bytes
mapping; a record whose declared length exceeds the remaining bytes (which
includes a dangling lone tag byte) is a malformed-input error, and a
repeated tag overwrites the earlier occurrence. -/
def parse_tlv_list (data : List Nat) : Option (List (Nat × List Nat)) :=
  parse_tlv_fuel data.length [] data

/-- Python `int(value.encode(hex), 16)`: the big-endian integer over the
value bytes; on an empty byte string Python raises, embedded as `none`. -/
def intFromBytes : List Nat → Option Nat
  | [] => none
  | bs => some (bs.foldl (fun a b => a * 256 + b) 0)

/-- The TLV tag carrying the capability bitmask. -/
def YK4_CAPA_TAG : Nat := 0x01

/-- The TLV tag carrying the serial number. -/
def YK4_SERIAL_TAG : Nat := 0x02

/-- The TLV tag carrying the enabled-capability bitmask. -/
def YK4_ENABLED_TAG : Nat := 0x03

/-- The mutable classification state of `YubiKey.__init__`: the class
attributes capabilities = 0, enabled = 0 and serial absent, threaded
explicitly. -/
structure CapState where
  capabilities : Nat
  serial : Option Nat
  enabled : Nat
deriving DecidableEq, Repr

/-- The initial classification state (the class-attribute defaults). -/
def capInit : CapState := { capabilities := 0, serial := none, enabled := 0 }

/-- `YubiKey._parse_capabilities`: an empty blob returns unchanged; else the
first byte is the declared payload length, the next that-many bytes are
TLV-decoded, and tags 0x01, 0x02, 0x03 update capabilities, serial and
enabled; with tag 0x03 absent, enabled is set to the (just decoded)
capabilities.  `none` is a raised decode fault. -/
def parseCapabilities (s : CapState) (data : List Nat) : Option CapState :=
  match data with
  | [] => some s
  | c_len :: rest =>
    match parse_tlv_list (rest.take c_len) with
    | none => none
    | some m => do
      let s ← match m.lookup YK4_CAPA_TAG with
        | some v => (intFromBytes v).map (fun n => { s with capabilities := n })
        | none => some s
      let s ← match m.lookup YK4_SERIAL_TAG with
        | some v => (intFromBytes v).map (fun n => { s with serial := some n })
        | none => some s
      match m.lookup YK4_ENABLED_TAG with
        | some v => (intFromBytes v).map (fun n => { s with enabled := n })
        | none => some { s with enabled := s.capabilities }

/-- Python `x & ~mask` on a nonnegative arbitrary-precision int: keep the
bits of `x` outside `mask`.  Since `x &&& mask` is bitwise below `x`, the
xor clears exactly those bits. -/
def andNot (x mask : Nat) : Nat := x ^^^ (x &&& mask)

/-- The classification branches of `YubiKey.__init__`: device name plus the
capability state before the enabled-default post-step.  `none` is a raised
decode fault from `_parse_capabilities`. -/
def classify (d : Driver) : Option (String × CapState) :=
  if d.transport == TRANSPORT.U2F && d.sky then
    some ("Security Key by Yubico", { capInit with capabilities := CAPABILITY.U2F })
  else if d.version.geTriple 4 1 0 then
    match parseCapabilities capInit d.read_capabilities with
    | none => none
    | some s =>
      if s.capabilities == 0x07 then
        some ("YubiKey Edge", { s with capabilities := CAPABILITY.OTP ||| CAPABILITY.U2F })
      else
        some ("YubiKey 4", s)
  else if d.version.geTriple 4 0 0 then
    some ("YubiKey Plus", { capInit with capabilities := CAPABILITY.OTP ||| CAPABILITY.U2F })
  else if d.version.geTriple 3 0 0 then
    some ("YubiKey NEO",
      { capInit with capabilities :=
          if d.transport == TRANSPORT.CCID then d.probe_capabilities_support
          else if d.mode.has_transport TRANSPORT.U2F || d.version.geTriple 3 3 0 then
            CAPABILITY.OTP ||| CAPABILITY.U2F ||| CAPABILITY.CCID
          else CAPABILITY.OTP ||| CAPABILITY.CCID })
  else
    some ("YubiKey", { capInit with capabilities := CAPABILITY.OTP })

/-- The YubiKey device handle: name, capability mask, enabled mask, the
serial decoded from TLV data if any, and the owned driver. -/
structure YubiKey where
  device_name : String
  capabilities : Nat
  enabled : Nat
  _serial : Option Nat
  _driver : Driver
deriving DecidableEq, Repr

/-- `YubiKey.__init__` for a present driver: classify, then, if the enabled
mask is still falsy (zero), default it to the capabilities with all
transport bits cleared, or-ed with the transports of the reported mode. -/
def YubiKey.init (d : Driver) : Option YubiKey :=
  match classify d with
  | none => none
  | some (name, s) =>
      some { device_name := name
             capabilities := s.capabilities
             enabled :=
               if s.enabled == 0 then
                 andNot s.capabilities TRANSPORT.sum ||| d.mode.transports
               else s.enabled
             _serial := s.serial
             _driver := d }

/-- The `version` property: delegates to the driver. -/
def YubiKey.version (y : YubiKey) : Version := y._driver.version

/-- The `transport` property: delegates to the driver. -/
def YubiKey.transport (y : YubiKey) : Nat := y._driver.transport

/-- The `mode` property: the driver cached mode. -/
def YubiKey.mode (y : YubiKey) : Mode := y._driver.mode

/-- The `serial` property, Python `self._serial or self._driver.serial`:
the TLV-decoded serial when truthy (present and nonzero), else the driver
serial. -/
def YubiKey.serial (y : YubiKey) : Option Nat :=
  match y._serial with
  | some n => if n != 0 then some n else y._driver.serial
  | none => y._driver.serial

/-- `has_mode`: the transports required by the mode are a subset of the
capability mask. -/
def YubiKey.has_mode (y : YubiKey) (m : Mode) : Bool :=
  y.capabilities &&& m.transports == m.transports

/-- One hardware mode-change command as handed to `driver.set_mode`: the
combined flag-and-code byte, the challenge-response timeout and the
autoeject time. -/
structure SetModeCmd where
  byte : Nat
  cr_timeout : Nat
  autoeject_time : Nat
deriving DecidableEq, Repr

/-- `YubiKey.set_mode`: build the flag byte (0x80 when an autoeject time is
given; forced to 0x80 for firmware at most 3.3.1 with mode code 2), issue
the command byte `flags | mode.code` to the driver, then update the driver
cached mode.  Returns the issued command and the driver state afterwards. -/
def YubiKey.set_mode (y : YubiKey) (mode : Mode) (cr_timeout : Nat)
    (autoeject_time : Option Nat) : SetModeCmd × Driver :=
  let flags : Nat := 0
  let p :=
    match autoeject_time with
    | some t => (flags ||| 0x80, t)
    | none => (flags, 0)
  let flags :=
    if y.version.leTriple 3 3 1 && mode.code == 2 then 0x80 else p.1
  ({ byte := flags ||| mode.code, cr_timeout := cr_timeout,
     autoeject_time := p.2 },
   { y._driver with mode := mode })

/-- The observable outcome of a guarded mode assignment: the commands that
reached the driver, the driver state afterwards, and the raised error, if
any. -/
structure ModeSetResult where
  issued : List SetModeCmd
  driver : Driver
  error : Option String
deriving DecidableEq, Repr

/-- The `mode` property setter: raise a ValueError when `has_mode` fails,
leaving the driver untouched and issuing nothing; otherwise delegate to
`set_mode` with the default timeout arguments. -/
def YubiKey.mode_set (y : YubiKey) (m : Mode) : ModeSetResult :=
  if y.has_mode m then
    let r := y.set_mode m 0 none
    { issued := [r.1], driver := r.2, error := none }
  else
    { issued := [], driver := y._driver, error := some "Mode not supported" }

/-- Discovery failure: any exception from a transport-open attempt is
wrapped into a FailedOpeningDeviceException carrying the original; a fault
raised while constructing the YubiKey handle afterwards propagates as is. -/
inductive OpenErr
  | failedOpening (orig : String)
  | classifyFault
deriving DecidableEq, Repr

/-- `open_device`: try CCID, then OTP, then U2F, each only when its bit is
in the requested mask and no driver was found yet; an exception from any
attempt aborts the chain and is wrapped; a found driver is turned into a
handle, no driver at all yields `none`.  An opener is a function from the
transport flag to its outcome, and the returned list records the transports
attempted, in order. -/
def open_device (transports : Nat) (f : Nat → Except String (Option Driver)) :
    List Nat × Except OpenErr (Option YubiKey) :=
  let s0 : List Nat × Except String (Option Driver) := ([], .ok none)
  let s1 :=
    if TRANSPORT.CCID &&& transports != 0 then
      ([TRANSPORT.CCID], f TRANSPORT.CCID)
    else s0
  let s2 :=
    match s1 with
    | (tr, .ok none) =>
        if TRANSPORT.OTP &&& transports != 0 then
          (tr ++ [TRANSPORT.OTP], f TRANSPORT.OTP)
        else s1
    | _ => s1
  let s3 :=
    match s2 with
    | (tr, .ok none) =>
        if TRANSPORT.U2F &&& transports != 0 then
          (tr ++ [TRANSPORT.U2F], f TRANSPORT.U2F)
        else s2
    | _ => s2
  (s3.1,
   match s3.2 with
   | .error e => .error (.failedOpening e)
   | .ok none => .ok none
   | .ok (some d) =>
       match YubiKey.init d with
       | none => .error .classifyFault
       | some y => .ok (some y))

/-- The observable outcome of `use_transport`. -/
inductive UseResult
  | same
  | dev (y : YubiKey)
  | valueError
  | assertFail
  | openFail (e : OpenErr)
  | noneCrash
deriving DecidableEq, Repr

/-- Python truthiness of an optional integer: present and nonzero. -/
def optTruthy : Option Nat → Bool
  | none => false
  | some n => n != 0

/-- `YubiKey.use_transport`: a no-op on the current transport; a ValueError
when the current mode lacks the requested transport; otherwise capture mode
and serial, release the driver and reopen via `open_device` scoped to the
one transport.  The reopened handle is checked: when both serials are
truthy they must agree, and the reopened mode must equal the captured one;
a failed check is an assertion fault.  `noneCrash` is the attribute fault
Python raises when `open_device` found nothing and `dev.serial` is read. -/
def YubiKey.use_transport (y : YubiKey) (transport : Nat)
    (f : Nat → Except String (Option Driver)) : UseResult :=
  if y.transport == transport then .same
  else if !(y.mode.has_transport transport) then .valueError
  else
    let my_mode := y.mode
    let my_serial := y.serial
    match (open_device transport f).2 with
    | .error e => .openFail e
    | .ok none => .noneCrash
    | .ok (some dev) =>
        if optTruthy dev.serial && optTruthy my_serial then
          if dev.serial == my_serial then
            if dev.mode == my_mode then .dev dev else .assertFail
          else .assertFail
        else
          if dev.mode == my_mode then .dev dev else .assertFail

/-! Concrete fixtures used by counterexamples and witnesses. -/

/-- A legacy-firmware driver: OTP transport, firmware 2.0.0, OTP-only mode. -/
def legacyDrv : Driver :=
  { transport := TRANSPORT.OTP, sky := false, version := ⟨2, 0, 0⟩,
    mode := ⟨1, TRANSPORT.OTP⟩, serial := none, read_capabilities := [],
    probe_capabilities_support := 0 }

/-- The handle the classifier builds for `legacyDrv`. -/
def legacyYK : YubiKey :=
  { device_name := "YubiKey", capabilities := 1, enabled := 1,
    _serial := none, _driver := legacyDrv }

/-- A firmware 4.1.0 CCID driver whose capability blob declares payload
length 3 and one TLV record, tag 0x01 of length 1 with value 0x07 and no
tag 0x03: the Edge reclassification input. -/
def edgeDrv : Driver :=
  { transport := TRANSPORT.CCID, sky := false, version := ⟨4, 1, 0⟩,
    mode := ⟨1, TRANSPORT.OTP⟩, serial := none,
    read_capabilities := [3, 1, 1, 7], probe_capabilities_support := 0 }

/-- The handle the classifier builds for `edgeDrv`: capabilities forced to
OTP and U2F while the enabled mask keeps the decoded default 0x07. -/
def edgeYK : YubiKey :=
  { device_name := "YubiKey Edge", capabilities := 3, enabled := 7,
    _serial := none, _driver := edgeDrv }

/-- A firmware 4.1.0 driver whose blob decodes tag 0x01 to 0x0F with no tag
0x03, while the reported mode has only the OTP transport active. -/
def yk4Drv15 : Driver :=
  { transport := TRANSPORT.CCID, sky := false, version := ⟨4, 1, 0⟩,
    mode := ⟨1, TRANSPORT.OTP⟩, serial := none,
    read_capabilities := [3, 1, 1, 15], probe_capabilities_support := 0 }

/-- The handle the classifier builds for `yk4Drv15`. -/
def yk4YK15 : YubiKey :=
  { device_name := "YubiKey 4", capabilities := 15, enabled := 15,
    _serial := none, _driver := yk4Drv15 }

/-- A firmware 4.1.5 driver with the Edge blob, for the C7 witness. -/
def edgeDrv415 : Driver :=
  { transport := TRANSPORT.CCID, sky := false, version := ⟨4, 1, 5⟩,
    mode := ⟨1, TRANSPORT.OTP⟩, serial := none,
    read_capabilities := [3, 1, 1, 7], probe_capabilities_support := 0 }

/-- The handle the classifier builds for `edgeDrv415`. -/
def edgeYK415 : YubiKey :=
  { device_name := "YubiKey Edge", capabilities := 3, enabled := 7,
    _serial := none, _driver := edgeDrv415 }

/-- The capability state `_parse_capabilities` decodes from the Edge blob. -/
def edgeCapState : CapState := { capabilities := 7, serial := none, enabled := 7 }

/-- A firmware 3.2.0 NEO driver on the smartcard transport with a probed
capability mask of 47. -/
def neoCcidDrv : Driver :=
  { transport := TRANSPORT.CCID, sky := false, version := ⟨3, 2, 0⟩,
    mode := ⟨5, 5⟩, serial := none, read_capabilities := [],
    probe_capabilities_support := 47 }

/-- The handle the classifier builds for `neoCcidDrv`: capabilities are the
probed 47, enabled defaults to 40 (47 without transport bits) or 5. -/
def neoCcidYK : YubiKey :=
  { device_name := "YubiKey NEO", capabilities := 47, enabled := 45,
    _serial := none, _driver := neoCcidDrv }

/-- A handle on firmware 3.3.0, used for the mode quirk. -/
def yk330 : YubiKey :=
  { device_name := "YubiKey NEO", capabilities := 7, enabled := 3,
    _serial := none,
    _driver := { transport := TRANSPORT.OTP, sky := false, version := ⟨3, 3, 0⟩,
                 mode := ⟨1, TRANSPORT.OTP⟩, serial := none,
                 read_capabilities := [], probe_capabilities_support := 0 } }

/-- A handle on firmware 4.0.0, used for the mode quirk comparison. -/
def yk400 : YubiKey :=
  { device_name := "YubiKey Plus", capabilities := 3, enabled := 3,
    _serial := none,
    _driver := { transport := TRANSPORT.OTP, sky := false, version := ⟨4, 0, 0⟩,
                 mode := ⟨1, TRANSPORT.OTP⟩, serial := none,
                 read_capabilities := [], probe_capabilities_support := 0 } }

/-- The legacy mode with numeric code 2 (OTP and U2F). -/
def modeCode2 : Mode := ⟨2, 3⟩

/-- A NEO driver on the OTP transport whose reported serial is 0 and whose
mode has the OTP and U2F transports active. -/
def zeroSerialDrv : Driver :=
  { transport := TRANSPORT.OTP, sky := false, version := ⟨3, 2, 0⟩,
    mode := ⟨6, 3⟩, serial := some 0, read_capabilities := [],
    probe_capabilities_support := 0 }

/-- The handle the classifier builds for `zeroSerialDrv`. -/
def zeroSerialYK : YubiKey :=
  { device_name := "YubiKey NEO", capabilities := 7, enabled := 3,
    _serial := none, _driver := zeroSerialDrv }

/-- The same device reopened on the U2F transport, now reporting serial 5. -/
def fiveSerialDrv : Driver :=
  { transport := TRANSPORT.U2F, sky := false, version := ⟨3, 2, 0⟩,
    mode := ⟨6, 3⟩, serial := some 5, read_capabilities := [],
    probe_capabilities_support := 0 }

/-- The handle the classifier builds for `fiveSerialDrv`. -/
def fiveSerialYK : YubiKey :=
  { device_name := "YubiKey NEO", capabilities := 7, enabled := 3,
    _serial := none, _driver := fiveSerialDrv }

/-- An opener environment that answers the U2F transport with
`fiveSerialDrv` and every other transport with no device. -/
def reopenU2F : Nat → Except String (Option Driver) :=
  fun t => if t == TRANSPORT.U2F then .ok (some fiveSerialDrv) else .ok none

/-- An opener environment with no device on any transport. -/
def openNothing : Nat → Except String (Option Driver) :=
  fun _ => .ok none

/-- An opener environment whose CCID attempt raises. -/
def openBoom : Nat → Except String (Option Driver) :=
  fun t => if t == TRANSPORT.CCID then .error "boom" else .ok none

/-! Bitmask helper lemmas. -/

/-- Pointwise form of a bitmask-subset equation. -/
lemma testBit_and_self {x c : Nat} (h : x &&& c = x) (i : Nat) :
    (x.testBit i && c.testBit i) = x.testBit i := by
  have h0 := congrArg (fun n => Nat.testBit n i) h
  simpa [Nat.testBit_land] using h0

/-- A union of two submasks of `c` is a submask of `c`. -/
lemma or_and_subset {x y c : Nat} (hx : x &&& c = x) (hy : y &&& c = y) :
    (x ||| y) &&& c = x ||| y := by
  apply Nat.eq_of_testBit_eq
  intro i
  have hx0 := testBit_and_self hx i
  have hy0 := testBit_and_self hy i
  simp only [Nat.testBit_land, Nat.testBit_lor]
  cases hxb : x.testBit i <;> cases hyb : y.testBit i <;> simp_all

/-- `andNot x m` keeps only bits of `x`: it is a submask of `x`. -/
lemma andNot_and_self (x m : Nat) : andNot x m &&& x = andNot x m := by
  apply Nat.eq_of_testBit_eq
  intro i
  simp only [andNot, Nat.testBit_land, Nat.testBit_xor]
  cases hxb : x.testBit i <;> cases hmb : m.testBit i <;> simp

/-- The defaulted enabled mask is a submask of the capabilities whenever the
mode transports are. -/
lemma enabled_default_subset {c mt : Nat} (h : mt &&& c = mt) :
    (andNot c TRANSPORT.sum ||| mt) &&& c = andNot c TRANSPORT.sum ||| mt :=
  or_and_subset (andNot_and_self c TRANSPORT.sum) h

/-! Characterization of the handle constructor. -/

/-- A successful construction decomposes into a classification and the
enabled-default post-step. -/
lemma init_cases (d : Driver) (y : YubiKey) (hinit : YubiKey.init d = some y) :
    ∃ name s, classify d = some (name, s) ∧
      y.device_name = name ∧ y.capabilities = s.capabilities ∧
      y._serial = s.serial ∧ y._driver = d ∧
      y.enabled = (if s.enabled == 0 then
        andNot s.capabilities TRANSPORT.sum ||| d.mode.transports else s.enabled) := by
  unfold YubiKey.init at hinit
  rcases hcl : classify d with _ | ⟨name, s⟩ <;> rw [hcl] at hinit
  · cases hinit
  · obtain rfl := (Option.some.inj hinit).symm
    exact ⟨name, s, rfl, rfl, rfl, rfl, rfl, rfl⟩

/-- The security-key classification branch. -/
lemma classify_sky (d : Driver)
    (h : (d.transport == TRANSPORT.U2F && d.sky) = true) :
    classify d =
      some ("Security Key by Yubico",
            { capInit with capabilities := CAPABILITY.U2F }) := by
  unfold classify
  rw [if_pos h]

/-- The firmware 4.1.0-and-later classification branch. -/
lemma classify_yk4 (d : Driver)
    (hsky : (d.transport == TRANSPORT.U2F && d.sky) = false)
    (hver : d.version.geTriple 4 1 0 = true) :
    classify d =
      match parseCapabilities capInit d.read_capabilities with
      | none => none
      | some s =>
        if s.capabilities == 0x07 then
          some ("YubiKey Edge",
                { s with capabilities := CAPABILITY.OTP ||| CAPABILITY.U2F })
        else some ("YubiKey 4", s) := by
  unfold classify
  rw [if_neg (by simp [hsky]), if_pos hver]

/-- The firmware 4.1.0-and-later branch with a successfully decoded blob. -/
lemma classify_yk4_parsed (d : Driver)
    (hsky : (d.transport == TRANSPORT.U2F && d.sky) = false)
    (hver : d.version.geTriple 4 1 0 = true) (s0 : CapState)
    (hp : parseCapabilities capInit d.read_capabilities = some s0) :
    classify d =
      if s0.capabilities == 0x07 then
        some ("YubiKey Edge",
              { s0 with capabilities := CAPABILITY.OTP ||| CAPABILITY.U2F })
      else some ("YubiKey 4", s0) := by
  rw [classify_yk4 d hsky hver, hp]

/-- The firmware 4.1.0-and-later branch with a blob decode fault. -/
lemma classify_yk4_fault (d : Driver)
    (hsky : (d.transport == TRANSPORT.U2F && d.sky) = false)
    (hver : d.version.geTriple 4 1 0 = true)
    (hp : parseCapabilities capInit d.read_capabilities = none) :
    classify d = none := by
  rw [classify_yk4 d hsky hver, hp]

/-- The firmware 4.0.x classification branch. -/
lemma classify_plus (d : Driver)
    (hsky : (d.transport == TRANSPORT.U2F && d.sky) = false)
    (h41 : d.version.geTriple 4 1 0 = false)
    (h40 : d.version.geTriple 4 0 0 = true) :
    classify d =
      some ("YubiKey Plus",
            { capInit with capabilities := CAPABILITY.OTP ||| CAPABILITY.U2F }) := by
  unfold classify
  rw [if_neg (by simp [hsky]), if_neg (by simp [h41]), if_pos h40]

/-- The firmware 3.x classification branch. -/
lemma classify_neo (d : Driver)
    (hsky : (d.transport == TRANSPORT.U2F && d.sky) = false)
    (h41 : d.version.geTriple 4 1 0 = false)
    (h40 : d.version.geTriple 4 0 0 = false)
    (h30 : d.version.geTriple 3 0 0 = true) :
    classify d =
      some ("YubiKey NEO",
        { capInit with capabilities :=
            if d.transport == TRANSPORT.CCID then d.probe_capabilities_support
            else if d.mode.has_transport TRANSPORT.U2F || d.version.geTriple 3 3 0 then
              CAPABILITY.OTP ||| CAPABILITY.U2F ||| CAPABILITY.CCID
            else CAPABILITY.OTP ||| CAPABILITY.CCID }) := by
  unfold classify
  rw [if_neg (by simp [hsky]), if_neg (by simp [h41]), if_neg (by simp [h40]),
      if_pos h30]

/-- The oldest-firmware classification branch. -/
lemma classify_legacy (d : Driver)
    (hsky : (d.transport == TRANSPORT.U2F && d.sky) = false)
    (h41 : d.version.geTriple 4 1 0 = false)
    (h40 : d.version.geTriple 4 0 0 = false)
    (h30 : d.version.geTriple 3 0 0 = false) :
    classify d = some ("YubiKey", { capInit with capabilities := CAPABILITY.OTP }) := by
  unfold classify
  rw [if_neg (by simp [hsky]), if_neg (by simp [h41]), if_neg (by simp [h40]),
      if_neg (by simp [h30])]

/-- Version order: at least 4.1.0 implies at least 4.0.0. -/
lemma geTriple_410_imp_400 (v : Version) (h : v.geTriple 4 0 0 = false) :
    v.geTriple 4 1 0 = false := by
  unfold Version.geTriple at h ⊢
  simp only [decide_eq_false_iff_not] at h ⊢
  omega

/-- In every classification branch, the pre-post-step enabled mask is either
zero, or the blob-decoded one, with the capabilities either as decoded or
collapsed by the Edge override. -/
lemma classify_enabled (d : Driver) (name : String) (s : CapState)
    (hcl : classify d = some (name, s)) :
    s.enabled = 0 ∨
    ∃ s0, parseCapabilities capInit d.read_capabilities = some s0 ∧
      (d.transport == TRANSPORT.U2F && d.sky) = false ∧
      d.version.geTriple 4 1 0 = true ∧
      s.enabled = s0.enabled ∧
      (s.capabilities = s0.capabilities ∨
        (s0.capabilities = 7 ∧ s.capabilities = CAPABILITY.OTP ||| CAPABILITY.U2F)) := by
  by_cases hsky : (d.transport == TRANSPORT.U2F && d.sky) = true
  · rw [classify_sky d hsky] at hcl
    obtain ⟨-, rfl⟩ := Prod.mk.injEq .. ▸ Option.some.inj hcl
    exact Or.inl rfl
  · have hsky' : (d.transport == TRANSPORT.U2F && d.sky) = false :=
      Bool.eq_false_iff.mpr hsky
    by_cases h41 : d.version.geTriple 4 1 0 = true
    · rcases hp : parseCapabilities capInit d.read_capabilities with _ | s0
      · rw [classify_yk4_fault d hsky' h41 hp] at hcl
        cases hcl
      · rw [classify_yk4_parsed d hsky' h41 s0 hp] at hcl
        by_cases h7 : (s0.capabilities == 7) = true
        · rw [if_pos h7] at hcl
          obtain ⟨-, rfl⟩ := Prod.mk.injEq .. ▸ Option.some.inj hcl
          exact Or.inr ⟨s0, rfl, hsky', h41, rfl, Or.inr ⟨by simpa using h7, rfl⟩⟩
        · rw [if_neg h7] at hcl
          obtain ⟨-, rfl⟩ := Prod.mk.injEq .. ▸ Option.some.inj hcl
          exact Or.inr ⟨s0, rfl, hsky', h41, rfl, Or.inl rfl⟩
    · have h41' : d.version.geTriple 4 1 0 = false := Bool.eq_false_iff.mpr h41
      by_cases h40 : d.version.geTriple 4 0 0 = true
      · rw [classify_plus d hsky' h41' h40] at hcl
        obtain ⟨-, rfl⟩ := Prod.mk.injEq .. ▸ Option.some.inj hcl
        exact Or.inl rfl
      · have h40' : d.version.geTriple 4 0 0 = false := Bool.eq_false_iff.mpr h40
        by_cases h30 : d.version.geTriple 3 0 0 = true
        · rw [classify_neo d hsky' h41' h40' h30] at hcl
          obtain ⟨-, rfl⟩ := Prod.mk.injEq .. ▸ Option.some.inj hcl
          exact Or.inl rfl
        · have h30' : d.version.geTriple 3 0 0 = false := Bool.eq_false_iff.mpr h30
          rw [classify_legacy d hsky' h41' h40' h30'] at hcl
          obtain ⟨-, rfl⟩ := Prod.mk.injEq .. ▸ Option.some.inj hcl
          exact Or.inl rfl

/-- The declared payload length frames the blob: truncating the buffer to
the declared length does not change the decode. -/
lemma parseCapabilities_take (s : CapState) (b : Nat) (rest : List Nat) :
    parseCapabilities s (b :: rest) = parseCapabilities s (b :: rest.take b) := by
  simp only [parseCapabilities]
  rw [List.take_take, min_self]

/-! Claim theorems. -/

/-- C1 counterexample: the Edge reclassification input yields a handle with
enabled 0x07 and capabilities 0x03, so a bit set in enabled is missing from
capabilities and the claimed invariant fails on this constructed handle. -/
theorem C1_counterexample :
    YubiKey.init edgeDrv = some edgeYK ∧
    (edgeYK.enabled &&& edgeYK.capabilities == edgeYK.enabled) = false := by
  decide

/-- C1 (amended): the enabled bitmask is a subset of the capabilities
bitmask for every constructed handle, provided the reported mode transports
lie inside the final capabilities, and any decoded blob state has its
enabled mask inside its capability mask with the capability mask not
exactly 0x07 (no Edge reclassification). -/
theorem C1_enabled_subset_amended (d : Driver) (y : YubiKey)
    (hinit : YubiKey.init d = some y)
    (hmode : d.mode.transports &&& y.capabilities = d.mode.transports)
    (htlv : ∀ s, parseCapabilities capInit d.read_capabilities = some s →
      s.enabled &&& s.capabilities = s.enabled ∧ s.capabilities ≠ 7) :
    y.enabled &&& y.capabilities = y.enabled := by
  obtain ⟨name, s, hcl, -, hcap, -, -, hen⟩ := init_cases d y hinit
  rw [hcap] at hmode ⊢
  rw [hen]
  rcases classify_enabled d name s hcl with hz | ⟨s0, hp, -, -, hes, hcs⟩
  · have h00 : ((0 : Nat) == 0) = true := rfl
    rw [hz, if_pos h00]
    exact enabled_default_subset hmode
  · obtain ⟨hsub, hne7⟩ := htlv s0 hp
    rcases hcs with hcs | ⟨h7, -⟩
    · by_cases hz : (s.enabled == 0) = true
      · rw [if_pos hz]
        exact enabled_default_subset hmode
      · rw [if_neg hz, hcs, hes]
        exact hsub
    · exact absurd h7 hne7

/-- C1 witness: a legacy OTP-only device satisfies the amended invariant. -/
theorem C1_enabled_subset_amended_witness :
    legacyYK.enabled &&& legacyYK.capabilities = legacyYK.enabled :=
  C1_enabled_subset_amended legacyDrv legacyYK (by decide) (by decide)
    (fun s hs => by
      rw [show parseCapabilities capInit legacyDrv.read_capabilities =
            some capInit from rfl] at hs
      cases Option.some.inj hs
      exact ⟨rfl, by decide⟩)

/-- C2 counterexample: on firmware 3.3.0 with mode code 2 and no autoeject
the byte issued to the driver set_mode command is 0x82 (the quirk flag
or-ed with the mode code), not exactly 0x80 as claimed. -/
theorem C2_counterexample :
    yk330.version.leTriple 3 3 1 = true ∧ modeCode2.code = 2 ∧
    (yk330.set_mode modeCode2 0 none).1.byte = 0x82 ∧
    ((yk330.set_mode modeCode2 0 none).1.byte == 0x80) = false := by
  decide

/-- C2 (amended): with no autoeject time, firmware at most 3.3.1 requesting
mode code 2 issues the byte 0x82 (the forced flag 0x80 or-ed with the mode
code), while firmware 4.0.0 issues the mode code itself, with no quirk. -/
theorem C2_set_mode_quirk_amended (y : YubiKey) (m : Mode) (cr : Nat) :
    (y.version.leTriple 3 3 1 = true → m.code = 2 →
      (y.set_mode m cr none).1.byte = 0x82) ∧
    (y.version = ⟨4, 0, 0⟩ → (y.set_mode m cr none).1.byte = m.code) := by
  constructor
  · intro hle hcode
    simp only [YubiKey.set_mode, hle, hcode]
    decide
  · intro hv
    have hle : y.version.leTriple 3 3 1 = false := by rw [hv]; decide
    simp [YubiKey.set_mode, hle]

/-- C2 witness: the amended statement evaluated on firmware 3.3.0. -/
theorem C2_set_mode_quirk_amended_witness :
    (yk330.set_mode modeCode2 0 none).1.byte = 0x82 :=
  (C2_set_mode_quirk_amended yk330 modeCode2 0).1 (by decide) (by decide)

/-- C3: a mode assignment whose required transports exceed the capability
mask fails with the unsupported-mode error, issues no command to the
driver, and leaves the driver, in particular its cached mode, unchanged. -/
theorem C3_unsupported_mode (y : YubiKey) (m : Mode)
    (h : y.has_mode m = false) :
    (y.mode_set m).issued = [] ∧ (y.mode_set m).driver = y._driver ∧
    (y.mode_set m).error = some "Mode not supported" := by
  simp [YubiKey.mode_set, h]

/-- C3 witness: a U2F-requiring mode on an OTP-only legacy device. -/
theorem C3_unsupported_mode_witness :
    (legacyYK.mode_set ⟨6, 2⟩).issued = [] ∧
    (legacyYK.mode_set ⟨6, 2⟩).driver = legacyYK._driver ∧
    (legacyYK.mode_set ⟨6, 2⟩).error = some "Mode not supported" :=
  C3_unsupported_mode legacyYK ⟨6, 2⟩ (by decide)

/-- C4 counterexample: a transport switch from a handle whose captured
serial is present but 0 to a reopened device with serial 5: both serials
are present and differ, the modes agree, yet use_transport returns the
reopened handle instead of aborting, because the serial comparison is
skipped for a falsy (zero) serial. -/
theorem C4_counterexample :
    YubiKey.init zeroSerialDrv = some zeroSerialYK ∧
    YubiKey.init fiveSerialDrv = some fiveSerialYK ∧
    zeroSerialYK.serial = some 0 ∧ fiveSerialYK.serial = some 5 ∧
    fiveSerialYK.mode = zeroSerialYK.mode ∧
    zeroSerialYK.use_transport TRANSPORT.U2F reopenU2F = .dev fiveSerialYK := by
  decide

/-- C4 (amended): after a successful reopen on a different, enabled
transport, use_transport aborts with the consistency fault whenever both
serials are present and nonzero and differ, or the modes differ; it
returns the reopened handle exactly when the mode matches and the serial
check passes. -/
theorem C4_use_transport_amended (y : YubiKey) (t : Nat)
    (f : Nat → Except String (Option Driver)) (dev : YubiKey)
    (hne : (y.transport == t) = false)
    (hen : y.mode.has_transport t = true)
    (hopen : (open_device t f).2 = .ok (some dev)) :
    ((optTruthy dev.serial && optTruthy y.serial) = true → dev.serial ≠ y.serial →
        y.use_transport t f = .assertFail) ∧
    (dev.mode ≠ y.mode → y.use_transport t f = .assertFail) ∧
    ((optTruthy dev.serial && optTruthy y.serial) = true → dev.serial = y.serial →
        dev.mode = y.mode → y.use_transport t f = .dev dev) ∧
    ((optTruthy dev.serial && optTruthy y.serial) = false → dev.mode = y.mode →
        y.use_transport t f = .dev dev) := by
  have hu : y.use_transport t f =
      (if optTruthy dev.serial && optTruthy y.serial then
        if dev.serial == y.serial then
          (if dev.mode == y.mode then UseResult.dev dev else .assertFail)
        else .assertFail
      else (if dev.mode == y.mode then UseResult.dev dev else .assertFail)) := by
    simp only [YubiKey.use_transport, hne, hen, hopen]
    simp
  refine ⟨?_, ?_, ?_, ?_⟩
  · intro h hs
    simp [hu, h, hs]
  · intro hm
    simp [hu, hm]
  · intro h hs hm
    simp [hu, h, hs, hm]
  · intro h hm
    simp [hu, h, hm]

/-- C4 witness: a reopen whose serial check is skipped and whose mode
matches returns the reopened handle. -/
theorem C4_use_transport_amended_witness :
    zeroSerialYK.use_transport TRANSPORT.U2F reopenU2F = .dev fiveSerialYK :=
  (C4_use_transport_amended zeroSerialYK TRANSPORT.U2F reopenU2F fiveSerialYK
    (by decide) (by decide) (by decide)).2.2.2 (by decide) (by decide)

/-- C7: on the firmware 4.1.0-and-later path, a blob decoding to capability
mask exactly 0x07 reclassifies the device as the Edge variant with
capabilities forced to OTP and U2F, and any other decoded mask keeps the
YubiKey 4 classification with the decoded capabilities. -/
theorem C7_edge_override (d : Driver) (y : YubiKey) (s : CapState)
    (hsky : (d.transport == TRANSPORT.U2F && d.sky) = false)
    (hver : d.version.geTriple 4 1 0 = true)
    (hp : parseCapabilities capInit d.read_capabilities = some s)
    (hinit : YubiKey.init d = some y) :
    (s.capabilities = 7 →
      y.device_name = "YubiKey Edge" ∧
      y.capabilities = (CAPABILITY.OTP ||| CAPABILITY.U2F)) ∧
    (s.capabilities ≠ 7 →
      y.device_name = "YubiKey 4" ∧ y.capabilities = s.capabilities) := by
  obtain ⟨name, s1, hcl, hname, hcap, -, -, -⟩ := init_cases d y hinit
  rw [classify_yk4_parsed d hsky hver s hp] at hcl
  constructor
  · intro h7
    rw [if_pos (by simp [h7])] at hcl
    obtain ⟨hn, hs⟩ := Prod.mk.injEq .. ▸ Option.some.inj hcl
    rw [hname, ← hn, hcap, ← hs]
    exact ⟨rfl, rfl⟩
  · intro h7
    rw [if_neg (by simpa using h7)] at hcl
    obtain ⟨hn, hs⟩ := Prod.mk.injEq .. ▸ Option.some.inj hcl
    rw [hname, ← hn, hcap, ← hs]
    exact ⟨rfl, rfl⟩

/-- C7 witness: firmware 4.1.5 with a blob decoding to mask 0x07 yields the
Edge name and capabilities OTP or-ed with U2F. -/
theorem C7_edge_override_witness :
    edgeYK415.device_name = "YubiKey Edge" ∧
    edgeYK415.capabilities = (CAPABILITY.OTP ||| CAPABILITY.U2F) :=
  (C7_edge_override edgeDrv415 edgeYK415 edgeCapState (by decide) (by decide)
    (by decide) (by decide)).1 (by decide)

/-- C8: a firmware 3.x device not classified as a security key gets its
capabilities live-probed on the smartcard transport, the full OTP, U2F and
CCID mask when the mode has U2F or the firmware is at least 3.3.0, and the
OTP and CCID mask otherwise. -/
theorem C8_neo_capabilities (d : Driver) (y : YubiKey)
    (hsky : (d.transport == TRANSPORT.U2F && d.sky) = false)
    (h30 : d.version.geTriple 3 0 0 = true)
    (h40 : d.version.geTriple 4 0 0 = false)
    (hinit : YubiKey.init d = some y) :
    (d.transport = TRANSPORT.CCID →
      y.capabilities = d.probe_capabilities_support) ∧
    (d.transport ≠ TRANSPORT.CCID →
      (d.mode.has_transport TRANSPORT.U2F = true ∨
        d.version.geTriple 3 3 0 = true) →
      y.capabilities = (CAPABILITY.OTP ||| CAPABILITY.U2F ||| CAPABILITY.CCID)) ∧
    (d.transport ≠ TRANSPORT.CCID →
      d.mode.has_transport TRANSPORT.U2F = false →
      d.version.geTriple 3 3 0 = false →
      y.capabilities = (CAPABILITY.OTP ||| CAPABILITY.CCID)) := by
  have h41 := geTriple_410_imp_400 d.version h40
  obtain ⟨name, s1, hcl, -, hcap, -, -, -⟩ := init_cases d y hinit
  rw [classify_neo d hsky h41 h40 h30] at hcl
  obtain ⟨-, hs⟩ := Prod.mk.injEq .. ▸ Option.some.inj hcl
  rw [hcap, ← hs]
  refine ⟨?_, ?_, ?_⟩
  · intro ht
    simp [ht]
  · intro ht hu
    rcases hu with hu | hu <;> simp [ht, hu]
  · intro ht hu h33
    simp [ht, hu, h33]

/-- C8 witness: firmware 3.2.0 on the smartcard transport takes exactly the
probed capability mask. -/
theorem C8_neo_capabilities_witness :
    neoCcidYK.capabilities = neoCcidDrv.probe_capabilities_support :=
  (C8_neo_capabilities neoCcidDrv neoCcidYK (by decide) (by decide) (by decide)
    (by decide)).1 rfl

/-- C9 counterexample: a firmware 4.1.0 device whose blob has tag 0x01 with
value 0x0F and no tag 0x03, with only the OTP transport active in the
reported mode: the constructor leaves enabled at the full decoded mask 15,
while the transport-filtered default formula would give 9. -/
theorem C9_counterexample :
    YubiKey.init yk4Drv15 = some yk4YK15 ∧
    yk4YK15.enabled = 15 ∧
    (andNot yk4YK15.capabilities TRANSPORT.sum ||| yk4Drv15.mode.transports) = 9 ∧
    (yk4YK15.enabled ==
      (andNot yk4YK15.capabilities TRANSPORT.sum ||| yk4Drv15.mode.transports)) =
      false := by
  decide

/-- C9 (amended): the transport-filtered enabled default applies exactly
when the classification left enabled at zero: always on the security-key,
Plus, NEO and legacy branches, and on the 4.1.0-and-later path only when
the decoded enabled mask is zero; when the decode produced a nonzero
enabled mask (in particular via the absent-tag-0x03 default to the full
decoded capabilities), the constructor keeps it unchanged. -/
theorem C9_enabled_default_amended (d : Driver) (y : YubiKey)
    (hinit : YubiKey.init d = some y) :
    ((d.transport == TRANSPORT.U2F && d.sky) = true ∨
        d.version.geTriple 4 1 0 = false →
      y.enabled = andNot y.capabilities TRANSPORT.sum ||| d.mode.transports) ∧
    (∀ s, (d.transport == TRANSPORT.U2F && d.sky) = false →
      d.version.geTriple 4 1 0 = true →
      parseCapabilities capInit d.read_capabilities = some s →
      (s.enabled = 0 →
        y.enabled = andNot y.capabilities TRANSPORT.sum ||| d.mode.transports) ∧
      (s.enabled ≠ 0 → y.enabled = s.enabled)) := by
  obtain ⟨name, s1, hcl, -, hcap, -, -, hen⟩ := init_cases d y hinit
  rw [← hcap] at hen
  have h00 : ((0 : Nat) == 0) = true := rfl
  constructor
  · intro h
    rcases classify_enabled d name s1 hcl with hz | ⟨s0, hp0, hsky', h41, -, -⟩
    · rw [hen, hz, if_pos h00]
    · rcases h with hsky | h41'
      · exact absurd hsky (by simp [hsky'])
      · exact absurd h41 (by simp [h41'])
  · intro s hsky hver hp
    rw [classify_yk4_parsed d hsky hver s hp] at hcl
    by_cases h7 : (s.capabilities == 7) = true
    · rw [if_pos h7] at hcl
      obtain ⟨-, rfl⟩ := Prod.mk.injEq .. ▸ Option.some.inj hcl
      dsimp only at hen
      constructor
      · intro hz
        rw [hen, hz, if_pos h00]
      · intro hnz
        rw [hen, if_neg (by simpa using hnz)]
    · rw [if_neg h7] at hcl
      obtain ⟨-, rfl⟩ := Prod.mk.injEq .. ▸ Option.some.inj hcl
      constructor
      · intro hz
        rw [hen, hz, if_pos h00]
      · intro hnz
        rw [hen, if_neg (by simpa using hnz)]

/-- C9 witness: the legacy branch takes the transport-filtered default. -/
theorem C9_enabled_default_amended_witness :
    legacyYK.enabled =
      andNot legacyYK.capabilities TRANSPORT.sum ||| legacyDrv.mode.transports :=
  (C9_enabled_default_amended legacyDrv legacyYK (by decide)).1 (Or.inr (by decide))

/-- C10: the blob handed to `_parse_capabilities` is framed by its first
byte as a payload length: bytes beyond the declared length never change
the decode outcome (so neither capabilities, enabled nor serial), the
empty blob returns the state unchanged without a decode fault, and the
classification is likewise invariant under dropping bytes beyond the
declared length. -/
theorem C10_length_framing (s : CapState) (b : Nat) (rest : List Nat)
    (d : Driver) :
    parseCapabilities s (b :: rest) = parseCapabilities s (b :: rest.take b) ∧
    parseCapabilities s [] = some s ∧
    classify { d with read_capabilities := b :: rest } =
      classify { d with read_capabilities := b :: rest.take b } := by
  refine ⟨parseCapabilities_take s b rest, rfl, ?_⟩
  unfold classify
  dsimp only
  rw [parseCapabilities_take]

/-- The attempted transports form a subsequence of CCID, OTP, U2F. -/
lemma open_device_trace_sub (mask : Nat)
    (f : Nat → Except String (Option Driver)) :
    (open_device mask f).1.Sublist
      [TRANSPORT.CCID, TRANSPORT.OTP, TRANSPORT.U2F] := by
  unfold open_device
  by_cases h4 : (TRANSPORT.CCID &&& mask != 0) = true <;>
  by_cases h1 : (TRANSPORT.OTP &&& mask != 0) = true <;>
  by_cases h2 : (TRANSPORT.U2F &&& mask != 0) = true <;>
  rcases hf4 : f TRANSPORT.CCID with e4 | (_ | d4) <;>
  rcases hf1 : f TRANSPORT.OTP with e1 | (_ | d1) <;>
  rcases hf2 : f TRANSPORT.U2F with e2 | (_ | d2) <;>
  simp_all [TRANSPORT.CCID, TRANSPORT.OTP, TRANSPORT.U2F]

/-- Every attempted transport has its bit in the requested mask. -/
lemma open_device_trace_masked (mask : Nat)
    (f : Nat → Except String (Option Driver)) :
    ∀ t ∈ (open_device mask f).1, t &&& mask ≠ 0 := by
  unfold open_device
  by_cases h4 : (TRANSPORT.CCID &&& mask != 0) = true <;>
  by_cases h1 : (TRANSPORT.OTP &&& mask != 0) = true <;>
  by_cases h2 : (TRANSPORT.U2F &&& mask != 0) = true <;>
  rcases hf4 : f TRANSPORT.CCID with e4 | (_ | d4) <;>
  rcases hf1 : f TRANSPORT.OTP with e1 | (_ | d1) <;>
  rcases hf2 : f TRANSPORT.U2F with e2 | (_ | d2) <;>
  simp_all [List.forall_mem_cons]

/-- Every attempted transport except possibly the last found no device. -/
lemma open_device_trace_dropLast (mask : Nat)
    (f : Nat → Except String (Option Driver)) :
    ∀ t ∈ (open_device mask f).1.dropLast, f t = .ok none := by
  unfold open_device
  by_cases h4 : (TRANSPORT.CCID &&& mask != 0) = true <;>
  by_cases h1 : (TRANSPORT.OTP &&& mask != 0) = true <;>
  by_cases h2 : (TRANSPORT.U2F &&& mask != 0) = true <;>
  rcases hf4 : f TRANSPORT.CCID with e4 | (_ | d4) <;>
  rcases hf1 : f TRANSPORT.OTP with e1 | (_ | d1) <;>
  rcases hf2 : f TRANSPORT.U2F with e2 | (_ | d2) <;>
  simp_all [List.forall_mem_cons]

/-- When every attempted transport found no device, discovery returns
absence rather than an error. -/
lemma open_device_all_none (mask : Nat)
    (f : Nat → Except String (Option Driver))
    (h : ∀ t ∈ (open_device mask f).1, f t = .ok none) :
    (open_device mask f).2 = .ok none := by
  revert h
  unfold open_device
  by_cases h4 : (TRANSPORT.CCID &&& mask != 0) = true <;>
  by_cases h1 : (TRANSPORT.OTP &&& mask != 0) = true <;>
  by_cases h2 : (TRANSPORT.U2F &&& mask != 0) = true <;>
  rcases hf4 : f TRANSPORT.CCID with e4 | (_ | d4) <;>
  rcases hf1 : f TRANSPORT.OTP with e1 | (_ | d1) <;>
  rcases hf2 : f TRANSPORT.U2F with e2 | (_ | d2) <;>
  simp_all [List.forall_mem_cons]

set_option maxHeartbeats 1000000 in
/-- An exception from an attempted transport makes the whole discovery
return the wrapped error carrying the original. -/
lemma open_device_error_result (mask : Nat)
    (f : Nat → Except String (Option Driver)) (t : Nat) (e : String)
    (ht : t ∈ (open_device mask f).1) (he : f t = .error e) :
    (open_device mask f).2 = .error (.failedOpening e) := by
  revert ht
  unfold open_device
  by_cases h4 : (TRANSPORT.CCID &&& mask != 0) = true <;>
  by_cases h1 : (TRANSPORT.OTP &&& mask != 0) = true <;>
  by_cases h2 : (TRANSPORT.U2F &&& mask != 0) = true <;>
  rcases hf4 : f TRANSPORT.CCID with e4 | (_ | d4) <;>
  rcases hf1 : f TRANSPORT.OTP with e1 | (_ | d1) <;>
  rcases hf2 : f TRANSPORT.U2F with e2 | (_ | d2) <;>
  simp_all [TRANSPORT.CCID, TRANSPORT.OTP, TRANSPORT.U2F] <;>
  first
  | (rintro (rfl | rfl | rfl) <;> simp_all)
  | (rintro (rfl | rfl) <;> simp_all)
  | (rintro rfl <;> simp_all)
  | (refine ⟨?_, ?_, ?_⟩ <;> rintro rfl <;> simp_all)
  | (refine ⟨?_, ?_⟩ <;> rintro rfl <;> simp_all)

set_option maxHeartbeats 1000000 in
/-- An attempted transport that raised is the last attempt of the chain. -/
lemma open_device_error_last (mask : Nat)
    (f : Nat → Except String (Option Driver)) (t : Nat) (e : String)
    (ht : t ∈ (open_device mask f).1) (he : f t = .error e) :
    (open_device mask f).1.getLast? = some t := by
  revert ht
  unfold open_device
  by_cases h4 : (TRANSPORT.CCID &&& mask != 0) = true <;>
  by_cases h1 : (TRANSPORT.OTP &&& mask != 0) = true <;>
  by_cases h2 : (TRANSPORT.U2F &&& mask != 0) = true <;>
  rcases hf4 : f TRANSPORT.CCID with e4 | (_ | d4) <;>
  rcases hf1 : f TRANSPORT.OTP with e1 | (_ | d1) <;>
  rcases hf2 : f TRANSPORT.U2F with e2 | (_ | d2) <;>
  simp_all [TRANSPORT.CCID, TRANSPORT.OTP, TRANSPORT.U2F] <;>
  first
  | (rintro (rfl | rfl | rfl) <;> simp_all)
  | (rintro (rfl | rfl) <;> simp_all)
  | (rintro rfl <;> simp_all)
  | (refine ⟨?_, ?_, ?_⟩ <;> rintro rfl <;> simp_all)
  | (refine ⟨?_, ?_⟩ <;> rintro rfl <;> simp_all)

/-- C5: discovery attempts transports in the fixed order CCID, OTP, U2F,
never attempts one outside the requested mask, keeps trying only past
attempts that found nothing, and returns absence, not an error, when every
attempted transport found nothing. -/
theorem C5_discovery_order (mask : Nat)
    (f : Nat → Except String (Option Driver)) :
    (open_device mask f).1.Sublist
      [TRANSPORT.CCID, TRANSPORT.OTP, TRANSPORT.U2F] ∧
    (∀ t ∈ (open_device mask f).1, t &&& mask ≠ 0) ∧
    (∀ t ∈ (open_device mask f).1.dropLast, f t = .ok none) ∧
    ((∀ t ∈ (open_device mask f).1, f t = .ok none) →
      (open_device mask f).2 = .ok none) :=
  ⟨open_device_trace_sub mask f, open_device_trace_masked mask f,
   open_device_trace_dropLast mask f, open_device_all_none mask f⟩

/-- C5 witness: the full mask with no device present anywhere returns
absence. -/
theorem C5_discovery_order_witness :
    (open_device 7 openNothing).2 = .ok none :=
  (C5_discovery_order 7 openNothing).2.2.2 (by decide)

/-- C6: an exception while attempting a transport aborts the whole
discovery with the single wrapped failed-opening error carrying the
original, that transport is the last one attempted, and continuing to a
further transport only ever happens after an attempt that found nothing
without raising. -/
theorem C6_discovery_failfast (mask : Nat)
    (f : Nat → Except String (Option Driver)) (t : Nat) (e : String)
    (ht : t ∈ (open_device mask f).1) (he : f t = .error e) :
    (open_device mask f).2 = .error (.failedOpening e) ∧
    (open_device mask f).1.getLast? = some t ∧
    (∀ u ∈ (open_device mask f).1.dropLast, f u = .ok none) :=
  ⟨open_device_error_result mask f t e ht he,
   open_device_error_last mask f t e ht he,
   open_device_trace_dropLast mask f⟩

/-- C6 witness: a CCID attempt that raises aborts discovery with the
wrapped error as its only attempt. -/
theorem C6_discovery_failfast_witness :
    (open_device 7 openBoom).2 = .error (.failedOpening "boom") ∧
    (open_device 7 openBoom).1.getLast? = some TRANSPORT.CCID :=
  ⟨(C6_discovery_failfast 7 openBoom TRANSPORT.CCID "boom"
      (by decide) (by decide)).1,
   (C6_discovery_failfast 7 openBoom TRANSPORT.CCID "boom"
      (by decide) (by decide)).2.1⟩

end Ykman
